import Mathlib

/-!
Shallow embedding of the pynbp package (`pynbp/__init__.py`), the Python
implementation of the HP Tuners Numeric Broadcast Protocol: the packet
encoder (`BasePyNBP._genpacket`, `BasePyNBP.metadata`), the KPI state
tracking shared by both broadcasters, and one-iteration step functions for
the serial broadcaster loop (`PyNBP.run`) and the socket broadcaster loop
(`WifiPyNBP.run`).

Modelling conventions:
* Python strings are Lean `String`s; the packets returned by `str.encode`
  are modelled as the `String` whose UTF-8 encoding is the byte sequence.
* A KPI value may be any Python object; the encoder only ever interpolates
  it with `str()`, so a KPI value is modelled by its textual rendering.
* Wall-clock instants (`time.time()`) and payload timestamps are integers
  counting microseconds (a float of t seconds is the integer of t * 10^6
  microseconds), which renders the `"{:.6f}"` format spec exact: six
  fractional digits are precisely the microsecond count.  Rate-gate
  subtraction and comparison on this grid agree with the float arithmetic
  of the source for microsecond-valued instants.
* Raised exceptions are `Except PyError`; an `Except.error` escaping a
  step function models an exception that propagates out of the loop body
  and kills the broadcaster thread.
* The environment of one loop iteration (did the open or accept succeed,
  what the client sent, the clock readings, did the write succeed) is a
  record of oracles passed to the step function.
-/

deriving instance DecidableEq for Except

namespace Pynbp

/-- One KPI, the namedtuple `NbpKPI = namedtuple("NbpKPI", "name, unit, value")`.
The `value` field holds the textual rendering of the Python value, since the
encoder only uses it through string interpolation. -/
structure NbpKPI where
  name : String
  unit : String
  value : String
deriving DecidableEq, Repr

/-- One queued payload, the namedtuple
`NbpPayload = namedtuple("NbpPayload", "timestamp, packettype, nbpkpilist")`. -/
structure NbpPayload where
  timestamp : ℤ
  packettype : String
  nbpkpilist : List NbpKPI
deriving DecidableEq, Repr

/-- The fields of `BasePyNBP` shared by both broadcasters, as set up by
`BasePyNBP.__init__`.  The Python dict `self.kpis` is modelled as an
association list in insertion order (Python dicts preserve insertion order,
and overwriting a key keeps its position). -/
structure BaseState where
  device_name : String
  protocol_version : String
  last_update_time : ℤ
  packettime : ℤ
  kpis : List NbpKPI
  updatelist : List String
  min_update_interval : ℤ
deriving DecidableEq, Repr

/-- `BasePyNBP.__init__(nbpqueue, device_name, protocol_version, min_update_interval)`:
empty KPI table, empty update list, both clocks zero. -/
def initBase (device_name protocol_version : String) (min_update_interval : ℤ) :
    BaseState :=
  { device_name := device_name
    protocol_version := protocol_version
    last_update_time := 0
    packettime := 0
    kpis := []
    updatelist := []
    min_update_interval := min_update_interval }

/-- Python exceptions that the loop bodies can raise or observe. -/
inductive PyError where
  | valueError (msg : String)
  | keyError (key : String)
  | attributeError (msg : String)
  | transportError
deriving DecidableEq, Repr

/-- Left-pad the decimal rendering of a natural number with zeros to six digits. -/
def pad6 (n : ℕ) : String :=
  let s := toString n
  String.mk (List.replicate (6 - s.length) '0') ++ s

/-- Fixed-point rendering of a microsecond count: whole seconds, a dot,
six fractional digits. -/
def format6Nonneg (n : ℕ) : String :=
  toString (n / 1000000) ++ "." ++ pad6 (n % 1000000)

/-- Embedding of the Python format spec `"{:.6f}".format(t)` for an instant
of `t` microseconds: on the microsecond grid the six-digit fixed-point
rendering is exact, no rounding occurs. -/
def format6 (t : ℤ) : String :=
  if t < 0 then "-" ++ format6Nonneg (-t).toNat else format6Nonneg t.toNat

/-- `BasePyNBP.metadata`: `"@NAME:{0}\n\n".format(self.device_name)`. -/
def metadata (st : BaseState) : String :=
  "@NAME:" ++ st.device_name ++ "\n\n"

/-- The header line built by `_genpacket`:
`"*{0},{1},{2:.6f}\n".format(self.protocol_version, ptype, self.packettime)`. -/
def packetHeader (st : BaseState) (ptype : String) : String :=
  "*" ++ st.protocol_version ++ "," ++ ptype ++ "," ++ format6 st.packettime ++ "\n"

/-- One body line of `_genpacket`: quoted name, quoted unit when the unit
string is truthy (non-empty), then the value. -/
def kpiLine (k : NbpKPI) : String :=
  if k.unit ≠ "" then
    "\"" ++ k.name ++ "\",\"" ++ k.unit ++ "\":" ++ k.value ++ "\n"
  else
    "\"" ++ k.name ++ "\":" ++ k.value ++ "\n"

/-- The body built by the `for kpi in kpis:` loop of `_genpacket` (string
accumulation, one line per selected KPI). -/
def packetBody : List NbpKPI → String
  | [] => ""
  | k :: ks => kpiLine k ++ packetBody ks

/-- Python dict lookup by key on the KPI table: first (only) entry with the
given name. -/
def lookupKpi (t : List NbpKPI) (n : String) : Option NbpKPI :=
  t.find? (fun e => e.name = n)

/-- The list comprehension `[self.kpis[k] for k in self.updatelist]`: dict
lookups in update-list order, raising `KeyError` on a missing name. -/
def selectPending (t : List NbpKPI) : List String → Except PyError (List NbpKPI)
  | [] => Except.ok []
  | n :: ns =>
    match lookupKpi t n with
    | none => Except.error (PyError.keyError n)
    | some k =>
      match selectPending t ns with
      | Except.error e => Except.error e
      | Except.ok ks => Except.ok (k :: ks)

/-- The KPI selection of `_genpacket`:
`if self.updatelist and ptype != "ALL": kpis = [self.kpis[k] for k in self.updatelist]
else: kpis = self.kpis.values()`. -/
def selectKpis (st : BaseState) (ptype : String) : Except PyError (List NbpKPI) :=
  if st.updatelist ≠ [] ∧ ptype ≠ "ALL" then selectPending st.kpis st.updatelist
  else Except.ok st.kpis

/-- `BasePyNBP._genpacket(ptype)`: raise `ValueError` on an unrecognized
ptype; return the metadata packet for `"METADATA"`; otherwise header, one
line per selected KPI, and the `#` footer. -/
def genpacket (st : BaseState) (ptype : String) : Except PyError String :=
  if ¬(ptype = "ALL" ∨ ptype = "UPDATE" ∨ ptype = "METADATA") then
    Except.error (PyError.valueError ptype)
  else if ptype = "METADATA" then
    Except.ok (metadata st)
  else
    match selectKpis st ptype with
    | Except.error e => Except.error e
    | Except.ok ks => Except.ok (packetHeader st ptype ++ packetBody ks ++ "#\n\n")

/-- The update-list maintenance of both run loops:
`if kpi.name not in self.updatelist: self.updatelist.append(kpi.name)`. -/
def addName (u : List String) (n : String) : List String :=
  if n ∈ u then u else u ++ [n]

/-- The KPI-table maintenance `self.kpis[kpi.name] = kpi`: Python dict
assignment overwrites the entry in its existing position, or appends a new
entry at the end. -/
def upsert (t : List NbpKPI) (k : NbpKPI) : List NbpKPI :=
  if k.name ∈ t.map (fun e => e.name) then
    t.map (fun e => if e.name = k.name then k else e)
  else t ++ [k]

/-- One pass of the `for kpi in nbppayload.nbpkpilist:` loop body shared by
`PyNBP.run` and `WifiPyNBP.run`. -/
def applyKpi (st : BaseState) (k : NbpKPI) : BaseState :=
  { st with
    updatelist := addName st.updatelist k.name
    kpis := upsert st.kpis k }

/-- Merging one dequeued payload into the broadcaster state:
`self.packettime = nbppayload.timestamp` followed by the KPI loop. -/
def applyPayload (st : BaseState) (p : NbpPayload) : BaseState :=
  p.nbpkpilist.foldl applyKpi { st with packettime := p.timestamp }

/-- Outcome of the serial `serport.write(nbppacket)` call: success, a
`serial.SerialTimeoutException`, or any other exception. -/
inductive WriteResult where
  | ok
  | timeoutErr
  | otherErr
deriving DecidableEq, Repr

/-- The per-iteration environment of the serial loop `PyNBP.run`: the
dequeued payload, whether `serial.serial_for_url` succeeds (raising
`serial.SerialException` otherwise), the two `time.time()` readings (at the
rate gate and after the write), and the write outcome.  The diagnostic
`in_waiting` read is log-only and modelled as a no-op. -/
structure SerialEnv where
  payload : NbpPayload
  openOk : Bool
  tGate : ℤ
  tWrite : ℤ
  writeResult : WriteResult
deriving DecidableEq, Repr

/-- State of the serial broadcaster `PyNBP`: the shared base fields, the
`connected` flag, and `serport`, which is `none` before the first successful
open and otherwise carries the `is_open` flag of the port object. -/
structure SerialState where
  base : BaseState
  connected : Bool
  serport : Option Bool
deriving DecidableEq, Repr

/-- `PyNBP.run` before its loop: `connected = False`, `serport = None`. -/
def initSerial (base : BaseState) : SerialState :=
  { base := base, connected := false, serport := none }

/-- The guarded send of the serial loop (the `try:` block of `PyNBP.run`):
rate gate, packet generation, write, clearing of the update list and
recording of the emission time.  Only `serial.SerialTimeoutException` is
caught (closing the port and dropping to disconnected); every other
exception — the `ValueError` of `_genpacket`, a `KeyError` from the pending
lookup, a non-timeout write failure — propagates out of the loop. -/
def serialSend (st : SerialState) (env : SerialEnv) :
    Except PyError (SerialState × List String) :=
  if env.tGate - st.base.last_update_time < st.base.min_update_interval then
    Except.ok (st, [])
  else
    match genpacket st.base env.payload.packettype with
    | Except.error e => Except.error e
    | Except.ok pkt =>
      match env.writeResult with
      | WriteResult.ok =>
        Except.ok
          ({ st with
              base := { st.base with updatelist := [], last_update_time := env.tWrite } },
            [pkt])
      | WriteResult.timeoutErr =>
        Except.ok ({ st with connected := false, serport := some false }, [])
      | WriteResult.otherErr => Except.error PyError.transportError

/-- One iteration of the `while True:` loop of `PyNBP.run`: dequeue and
merge the payload, attempt the open when disconnected (logging and staying
disconnected on `SerialException`), then the
`if not connected and not serport.is_open: continue` guard — which
evaluates `serport.is_open` and therefore raises `AttributeError` when
`serport` is still `None` — and finally the guarded send.  The returned
list collects the packets successfully written this iteration. -/
def serialStep (st : SerialState) (env : SerialEnv) :
    Except PyError (SerialState × List String) :=
  let st1 : SerialState := { st with base := applyPayload st.base env.payload }
  let st2 : SerialState :=
    if st1.connected = false then
      if env.openOk then { st1 with connected := true, serport := some true } else st1
    else st1
  if st2.connected = false then
    match st2.serport with
    | none => Except.error (PyError.attributeError "NoneType object has no attribute is_open")
    | some isOpen => if isOpen = false then Except.ok (st2, []) else serialSend st2 env
  else serialSend st2 env

/-- Embedding of Python `str.strip()`: drop whitespace characters from both
ends (structurally, on the character list). -/
def pyStrip (s : String) : String :=
  String.mk (((s.data.dropWhile Char.isWhitespace).reverse.dropWhile
    Char.isWhitespace).reverse)

/-- Outcome of the non-blocking `conn.recv(1024)` of `WifiPyNBP.run`: some
decoded data, a `BlockingIOError` (nothing available), or any other
exception such as `ConnectionResetError`. -/
inductive RecvResult where
  | data (s : String)
  | wouldBlock
  | err
deriving DecidableEq, Repr

/-- The per-iteration environment of the socket loop `WifiPyNBP.run`: the
dequeued payload, whether `sock.accept` succeeds within its timeout, the
recv outcome, whether the out-of-band `conn.sendall` of the requested ALL
packet succeeds, the two `time.time()` readings, and whether the regular
`conn.sendall` succeeds. -/
structure WifiEnv where
  payload : NbpPayload
  acceptOk : Bool
  recv : RecvResult
  oobSendOk : Bool
  tGate : ℤ
  tWrite : ℤ
  sendOk : Bool
deriving DecidableEq, Repr

/-- State of the socket broadcaster `WifiPyNBP`: the shared base fields and
the `connected` flag. -/
structure WifiState where
  base : BaseState
  connected : Bool
deriving DecidableEq, Repr

/-- `WifiPyNBP.run` before its loop: `connected = False`. -/
def initWifi (base : BaseState) : WifiState :=
  { base := base, connected := false }

/-- The second `try:` block of `WifiPyNBP.run`: rate gate, packet
generation, `conn.sendall`, clearing of the update list and recording of
the emission time.  Its `except Exception` clause catches every exception —
including the `ValueError` of `_genpacket` on an invalid kind and any
`KeyError` — logging, closing the connection and dropping to disconnected,
so this phase never lets an exception escape. -/
def wifiSend (st : WifiState) (env : WifiEnv) (out : List String) :
    WifiState × List String :=
  if env.tGate - st.base.last_update_time < st.base.min_update_interval then
    (st, out)
  else
    match genpacket st.base env.payload.packettype with
    | Except.error _ => ({ st with connected := false }, out)
    | Except.ok pkt =>
      if env.sendOk then
        ({ st with
            base := { st.base with updatelist := [], last_update_time := env.tWrite } },
          out ++ [pkt])
      else ({ st with connected := false }, out)

/-- One iteration of the `while True:` loop of `WifiPyNBP.run`: dequeue and
merge the payload, attempt `accept` when no client is connected (a timeout
is logged and skips the iteration), then the read `try:` block — whose
`except BlockingIOError` clause catches only the nothing-to-read case, so a
failing `recv` or a failing out-of-band `sendall` of the requested ALL
packet propagates out of the loop — and finally the guarded send.  The
returned list collects the packets successfully sent this iteration. -/
def wifiStep (st : WifiState) (env : WifiEnv) :
    Except PyError (WifiState × List String) :=
  let st1 : WifiState := { st with base := applyPayload st.base env.payload }
  let st2 : WifiState :=
    if st1.connected = false ∧ env.acceptOk then { st1 with connected := true } else st1
  if st2.connected = false then Except.ok (st2, [])
  else
    match env.recv with
    | RecvResult.err => Except.error PyError.transportError
    | RecvResult.wouldBlock => Except.ok (wifiSend st2 env [])
    | RecvResult.data s =>
      if s = "" then Except.ok (wifiSend st2 env [])
      else if pyStrip s = "!ALL" then
        match genpacket st2.base "ALL" with
        | Except.error e => Except.error e
        | Except.ok pkt =>
          if env.oobSendOk then Except.ok (wifiSend st2 env [pkt])
          else Except.error PyError.transportError
      else Except.ok (wifiSend st2 env [])

/-- Specification-side helper: the first occurrence of each name, in order,
among the names not in `seen`. -/
def firstSeenAux (seen : List String) : List String → List String
  | [] => []
  | n :: ns =>
    if n ∈ seen then firstSeenAux seen ns else n :: firstSeenAux (n :: seen) ns

/-- Specification-side helper: duplicates suppressed, first-seen order
preserved. -/
def firstSeen (ns : List String) : List String :=
  firstSeenAux [] ns

/-- Specification-side helper: the last KPI carrying a given name in a list
of writes. -/
def lastWrite (l : List NbpKPI) (n : String) : Option NbpKPI :=
  (l.filter (fun k => decide (k.name = n))).getLast?

/-- Specification-side definition of the last-write-wins merge of a list of
KPI writes: one entry per name in first-seen order, each carrying the last
write of that name. -/
def lwwMerge (l : List NbpKPI) : List NbpKPI :=
  (firstSeen (l.map (fun k => k.name))).filterMap (lastWrite l)

/-- Specification-side helper: the concatenation of the KPI lists of a
sequence of payloads, in order. -/
def allKpis : List NbpPayload → List NbpKPI
  | [] => []
  | p :: ps => p.nbpkpilist ++ allKpis ps

theorem mem_firstSeenAux (n : String) :
    ∀ (ns seen : List String), n ∈ firstSeenAux seen ns ↔ n ∈ ns ∧ n ∉ seen := by
  intro ns
  induction ns with
  | nil => intro seen; simp [firstSeenAux]
  | cons m ns ih =>
    intro seen
    by_cases hm : m ∈ seen
    · rw [firstSeenAux, if_pos hm, ih, List.mem_cons]
      constructor
      · rintro ⟨h1, h2⟩; exact ⟨Or.inr h1, h2⟩
      · rintro ⟨h1 | h1, h2⟩
        · exact absurd (h1 ▸ hm) h2
        · exact ⟨h1, h2⟩
    · rw [firstSeenAux, if_neg hm, List.mem_cons, ih, List.mem_cons, List.mem_cons]
      constructor
      · rintro (h | ⟨h1, h2⟩)
        · exact ⟨Or.inl h, h ▸ hm⟩
        · exact ⟨Or.inr h1, fun hs => h2 (Or.inr hs)⟩
      · rintro ⟨h1 | h1, h2⟩
        · exact Or.inl h1
        · by_cases hnm : n = m
          · exact Or.inl hnm
          · exact Or.inr ⟨h1, fun hs => hs.elim hnm h2⟩

theorem firstSeenAux_congr :
    ∀ (ns s1 s2 : List String), (∀ x, x ∈ s1 ↔ x ∈ s2) →
      firstSeenAux s1 ns = firstSeenAux s2 ns := by
  intro ns
  induction ns with
  | nil => intro s1 s2 _; rfl
  | cons m ns ih =>
    intro s1 s2 h
    by_cases hm : m ∈ s1
    · rw [firstSeenAux, if_pos hm, firstSeenAux, if_pos ((h m).mp hm)]
      exact ih s1 s2 h
    · rw [firstSeenAux, if_neg hm, firstSeenAux, if_neg (fun c => hm ((h m).mpr c))]
      refine congrArg (m :: ·) (ih _ _ fun x => ?_)
      simp only [List.mem_cons]
      exact or_congr Iff.rfl (h x)

theorem foldl_addName :
    ∀ (ns u : List String), ns.foldl addName u = u ++ firstSeenAux u ns := by
  intro ns
  induction ns with
  | nil => intro u; simp [firstSeenAux]
  | cons m ns ih =>
    intro u
    rw [List.foldl_cons]
    by_cases hm : m ∈ u
    · rw [addName, if_pos hm, ih, firstSeenAux, if_pos hm]
    · rw [addName, if_neg hm, ih, firstSeenAux, if_neg hm]
      rw [firstSeenAux_congr ns (u ++ [m]) (m :: u) (by intro x; simp [or_comm])]
      simp

theorem nodup_firstSeenAux :
    ∀ (ns seen : List String), (firstSeenAux seen ns).Nodup := by
  intro ns
  induction ns with
  | nil => intro seen; simp [firstSeenAux]
  | cons m ns ih =>
    intro seen
    by_cases hm : m ∈ seen
    · rw [firstSeenAux, if_pos hm]; exact ih seen
    · rw [firstSeenAux, if_neg hm]
      refine List.nodup_cons.mpr ⟨fun c => ?_, ih (m :: seen)⟩
      exact ((mem_firstSeenAux m ns (m :: seen)).mp c).2 (List.mem_cons_self m seen)

theorem foldl_applyKpi_kpis :
    ∀ (l : List NbpKPI) (st : BaseState),
      (l.foldl applyKpi st).kpis = l.foldl upsert st.kpis := by
  intro l
  induction l with
  | nil => intro st; rfl
  | cons k l ih => intro st; rw [List.foldl_cons, List.foldl_cons, ih]; rfl

theorem foldl_applyKpi_updatelist :
    ∀ (l : List NbpKPI) (st : BaseState),
      (l.foldl applyKpi st).updatelist =
        (l.map (fun k => k.name)).foldl addName st.updatelist := by
  intro l
  induction l with
  | nil => intro st; rfl
  | cons k l ih => intro st; rw [List.foldl_cons, List.map_cons, List.foldl_cons, ih]; rfl

theorem foldl_applyKpi_packettime :
    ∀ (l : List NbpKPI) (st : BaseState),
      (l.foldl applyKpi st).packettime = st.packettime := by
  intro l
  induction l with
  | nil => intro st; rfl
  | cons k l ih => intro st; rw [List.foldl_cons, ih]; rfl

theorem foldl_applyKpi_last_update_time :
    ∀ (l : List NbpKPI) (st : BaseState),
      (l.foldl applyKpi st).last_update_time = st.last_update_time := by
  intro l
  induction l with
  | nil => intro st; rfl
  | cons k l ih => intro st; rw [List.foldl_cons, ih]; rfl

theorem foldl_applyKpi_min_update_interval :
    ∀ (l : List NbpKPI) (st : BaseState),
      (l.foldl applyKpi st).min_update_interval = st.min_update_interval := by
  intro l
  induction l with
  | nil => intro st; rfl
  | cons k l ih => intro st; rw [List.foldl_cons, ih]; rfl

theorem applyPayload_kpis (st : BaseState) (p : NbpPayload) :
    (applyPayload st p).kpis = p.nbpkpilist.foldl upsert st.kpis := by
  rw [applyPayload, foldl_applyKpi_kpis]

theorem applyPayload_updatelist (st : BaseState) (p : NbpPayload) :
    (applyPayload st p).updatelist =
      (p.nbpkpilist.map (fun k => k.name)).foldl addName st.updatelist := by
  rw [applyPayload, foldl_applyKpi_updatelist]

theorem applyPayload_packettime (st : BaseState) (p : NbpPayload) :
    (applyPayload st p).packettime = p.timestamp := by
  rw [applyPayload, foldl_applyKpi_packettime]

theorem applyPayload_last_update_time (st : BaseState) (p : NbpPayload) :
    (applyPayload st p).last_update_time = st.last_update_time := by
  rw [applyPayload, foldl_applyKpi_last_update_time]

theorem applyPayload_min_update_interval (st : BaseState) (p : NbpPayload) :
    (applyPayload st p).min_update_interval = st.min_update_interval := by
  rw [applyPayload, foldl_applyKpi_min_update_interval]

theorem foldl_applyPayload_kpis :
    ∀ (ps : List NbpPayload) (st : BaseState),
      (ps.foldl applyPayload st).kpis = (allKpis ps).foldl upsert st.kpis := by
  intro ps
  induction ps with
  | nil => intro st; rfl
  | cons p ps ih =>
    intro st
    rw [List.foldl_cons, ih, allKpis, List.foldl_append, applyPayload_kpis]

theorem foldl_applyPayload_updatelist :
    ∀ (ps : List NbpPayload) (st : BaseState),
      (ps.foldl applyPayload st).updatelist =
        ((allKpis ps).map (fun k => k.name)).foldl addName st.updatelist := by
  intro ps
  induction ps with
  | nil => intro st; rfl
  | cons p ps ih =>
    intro st
    rw [List.foldl_cons, ih, allKpis, List.map_append, List.foldl_append,
      applyPayload_updatelist]

theorem foldl_applyPayload_packettime :
    ∀ (ps : List NbpPayload) (st : BaseState) (h : ps ≠ []),
      (ps.foldl applyPayload st).packettime = (ps.getLast h).timestamp := by
  intro ps
  induction ps with
  | nil => intro st h; exact absurd rfl h
  | cons p ps ih =>
    intro st h
    cases ps with
    | nil => rw [List.foldl_cons, List.foldl_nil]; exact applyPayload_packettime st p
    | cons q qs =>
      rw [List.foldl_cons, List.getLast_cons (List.cons_ne_nil q qs)]
      exact ih (applyPayload st p) (List.cons_ne_nil q qs)

theorem lastWrite_concat (l : List NbpKPI) (k : NbpKPI) (n : String) :
    lastWrite (l ++ [k]) n = if n = k.name then some k else lastWrite l n := by
  rw [lastWrite, List.filter_append]
  by_cases h : k.name = n
  · rw [if_pos h.symm]
    have : List.filter (fun e => decide (e.name = n)) [k] = [k] := by
      simp [List.filter, h]
    rw [this, List.getLast?_concat]
  · rw [if_neg (fun c => h c.symm)]
    have : List.filter (fun e => decide (e.name = n)) [k] = [] := by
      simp [List.filter, h]
    rw [this, List.append_nil, lastWrite]

theorem lastWrite_of_mem (l : List NbpKPI) (n : String)
    (h : n ∈ l.map (fun k => k.name)) :
    ∃ k, lastWrite l n = some k ∧ k.name = n := by
  obtain ⟨k0, hk0, hname⟩ := List.mem_map.mp h
  have hmem : k0 ∈ l.filter (fun e => decide (e.name = n)) :=
    List.mem_filter.mpr ⟨hk0, by simp [hname]⟩
  have hne : l.filter (fun e => decide (e.name = n)) ≠ [] :=
    List.ne_nil_of_mem hmem
  obtain ⟨k, hk⟩ := Option.isSome_iff_exists.mp (List.getLast?_isSome.mpr hne)
  have hkf : k ∈ l.filter (fun e => decide (e.name = n)) :=
    List.mem_of_mem_getLast? (Option.mem_def.mpr hk)
  exact ⟨k, hk, by simpa using (List.mem_filter.mp hkf).2⟩

theorem map_name_filterMap (f : String → Option NbpKPI) :
    ∀ (ns : List String), (∀ n ∈ ns, ∃ k, f n = some k ∧ k.name = n) →
      ((ns.filterMap f).map (fun k => k.name)) = ns := by
  intro ns
  induction ns with
  | nil => intro _; rfl
  | cons n ns ih =>
    intro h
    obtain ⟨k, hf, hname⟩ := h n (List.mem_cons_self n ns)
    rw [List.filterMap_cons_some hf, List.map_cons, hname,
      ih (fun m hm => h m (List.mem_cons_of_mem n hm))]

theorem filterMap_replace (f : String → Option NbpKPI) (k : NbpKPI) :
    ∀ (ns : List String), (∀ n ∈ ns, ∃ e, f n = some e ∧ e.name = n) →
      ns.filterMap (fun n => if n = k.name then some k else f n) =
        (ns.filterMap f).map (fun e => if e.name = k.name then k else e) := by
  intro ns
  induction ns with
  | nil => intro _; rfl
  | cons n ns ih =>
    intro h
    obtain ⟨e, hf, hname⟩ := h n (List.mem_cons_self n ns)
    have ihr := ih (fun m hm => h m (List.mem_cons_of_mem n hm))
    by_cases hn : n = k.name
    · subst hn
      simp [List.filterMap_cons, hf, hname, ihr]
    · simp [List.filterMap_cons, hf, hn, hname, ihr]

theorem filterMap_nochange (f : String → Option NbpKPI) (k : NbpKPI) :
    ∀ (ns : List String), k.name ∉ ns →
      ns.filterMap (fun n => if n = k.name then some k else f n) = ns.filterMap f := by
  intro ns
  induction ns with
  | nil => intro _; rfl
  | cons n ns ih =>
    intro h
    have hn : ¬ n = k.name := fun c => h (c ▸ List.mem_cons_self n ns)
    have ihr := ih (fun c => h (List.mem_cons_of_mem n c))
    cases hfn : f n with
    | none => simp [List.filterMap_cons, hn, hfn, ihr]
    | some e => simp [List.filterMap_cons, hn, hfn, ihr]

theorem firstSeenAux_concat (m : String) :
    ∀ (ns seen : List String),
      firstSeenAux seen (ns ++ [m]) =
        firstSeenAux seen ns ++ (if m ∈ seen ∨ m ∈ ns then [] else [m]) := by
  intro ns
  induction ns with
  | nil =>
    intro seen
    by_cases hm : m ∈ seen
    · simp [firstSeenAux, hm]
    · simp [firstSeenAux, hm]
  | cons a ns ih =>
    intro seen
    by_cases ha : a ∈ seen
    · rw [List.cons_append, firstSeenAux, if_pos ha, firstSeenAux, if_pos ha, ih]
      by_cases hmm : m ∈ seen ∨ m ∈ ns
      · rw [if_pos hmm, if_pos]
        rcases hmm with h | h
        · exact Or.inl h
        · exact Or.inr (List.mem_cons_of_mem a h)
      · rw [if_neg hmm, if_neg]
        rintro (h | h)
        · exact hmm (Or.inl h)
        · rcases List.mem_cons.mp h with h | h
          · exact hmm (Or.inl (h ▸ ha))
          · exact hmm (Or.inr h)
    · rw [List.cons_append, firstSeenAux, if_neg ha, firstSeenAux, if_neg ha, ih,
        List.cons_append]
      by_cases hmm : m ∈ a :: seen ∨ m ∈ ns
      · rw [if_pos hmm, if_pos]
        rcases hmm with h | h
        · rcases List.mem_cons.mp h with h | h
          · exact Or.inr (h ▸ List.mem_cons_self a ns)
          · exact Or.inl h
        · exact Or.inr (List.mem_cons_of_mem a h)
      · rw [if_neg hmm, if_neg]
        rintro (h | h)
        · exact hmm (Or.inl (List.mem_cons_of_mem a h))
        · rcases List.mem_cons.mp h with h | h
          · exact hmm (Or.inl (h ▸ List.mem_cons_self a seen))
          · exact hmm (Or.inr h)

theorem firstSeen_concat (ns : List String) (m : String) :
    firstSeen (ns ++ [m]) =
      if m ∈ ns then firstSeen ns else firstSeen ns ++ [m] := by
  rw [firstSeen, firstSeenAux_concat, firstSeen]
  by_cases hm : m ∈ ns
  · simp [hm]
  · simp [hm]

theorem mem_firstSeen (n : String) (ns : List String) :
    n ∈ firstSeen ns ↔ n ∈ ns := by
  rw [firstSeen, mem_firstSeenAux]
  simp

theorem foldl_upsert_eq_lwwMerge :
    ∀ (l : List NbpKPI), l.foldl upsert [] = lwwMerge l := by
  intro l
  induction l using List.reverseRecOn with
  | nil => rfl
  | append_singleton l k ih =>
    rw [List.foldl_append, List.foldl_cons, List.foldl_nil, ih]
    have hlook : ∀ n ∈ firstSeen (l.map (fun k => k.name)),
        ∃ e, lastWrite l n = some e ∧ e.name = n := by
      intro n hn
      exact lastWrite_of_mem l n ((mem_firstSeen n _).mp hn)
    have hnames : (lwwMerge l).map (fun k => k.name) = firstSeen (l.map (fun k => k.name)) :=
      map_name_filterMap (lastWrite l) _ hlook
    have hfun : lastWrite (l ++ [k]) = fun n => if n = k.name then some k else lastWrite l n :=
      funext (lastWrite_concat l k)
    conv_rhs => rw [lwwMerge, List.map_append, List.map_cons, List.map_nil,
      firstSeen_concat, hfun]
    by_cases hm : k.name ∈ l.map (fun k => k.name)
    · rw [if_pos hm, filterMap_replace (lastWrite l) k _ hlook, ← lwwMerge]
      rw [upsert, if_pos (by rw [hnames, mem_firstSeen]; exact hm)]
    · rw [if_neg hm, List.filterMap_append, filterMap_nochange (lastWrite l) k _
        (fun c => hm ((mem_firstSeen _ _).mp c)), ← lwwMerge]
      rw [upsert, if_neg (by rw [hnames, mem_firstSeen]; exact hm)]
      congr 1
      simp

theorem lookupKpi_name {t : List NbpKPI} {n : String} {k : NbpKPI}
    (h : lookupKpi t n = some k) : k.name = n := by
  have := List.find?_some h
  simpa using this

theorem lookupKpi_isSome_exists {t : List NbpKPI} {n : String}
    (h : (lookupKpi t n).isSome) : ∃ k, lookupKpi t n = some k ∧ k.name = n := by
  obtain ⟨k, hk⟩ := Option.isSome_iff_exists.mp h
  exact ⟨k, hk, lookupKpi_name hk⟩

theorem selectPending_ok (t : List NbpKPI) :
    ∀ ns : List String, (∀ n ∈ ns, (lookupKpi t n).isSome) →
      selectPending t ns = Except.ok (ns.filterMap (lookupKpi t)) := by
  intro ns
  induction ns with
  | nil => intro _; rfl
  | cons n ns ih =>
    intro h
    obtain ⟨k, hk⟩ := Option.isSome_iff_exists.mp (h n (List.mem_cons_self n ns))
    have ihr := ih (fun m hm => h m (List.mem_cons_of_mem n hm))
    simp [selectPending, hk, ihr, List.filterMap_cons]

theorem packetBody_eq_foldr :
    ∀ ks : List NbpKPI, packetBody ks = (ks.map kpiLine).foldr (fun a b => a ++ b) "" := by
  intro ks
  induction ks with
  | nil => rfl
  | cons k ks ih => rw [packetBody, ih]; rfl

theorem genpacket_all (st : BaseState) :
    genpacket st "ALL" =
      Except.ok (packetHeader st "ALL" ++ packetBody st.kpis ++ "#\n\n") := by
  rw [genpacket, if_neg (by decide), if_neg (by decide), selectKpis,
    if_neg (fun h => h.2 rfl)]

theorem genpacket_update_of_empty (st : BaseState) (h : st.updatelist = []) :
    genpacket st "UPDATE" =
      Except.ok (packetHeader st "UPDATE" ++ packetBody st.kpis ++ "#\n\n") := by
  rw [genpacket, if_neg (by decide), if_neg (by decide), selectKpis,
    if_neg (fun c => c.1 h)]

theorem genpacket_update_of_pending (st : BaseState) (hne : st.updatelist ≠ [])
    (hwf : ∀ n ∈ st.updatelist, (lookupKpi st.kpis n).isSome) :
    genpacket st "UPDATE" =
      Except.ok (packetHeader st "UPDATE" ++
        packetBody (st.updatelist.filterMap (lookupKpi st.kpis)) ++ "#\n\n") := by
  rw [genpacket, if_neg (by decide), if_neg (by decide), selectKpis,
    if_pos ⟨hne, by decide⟩, selectPending_ok st.kpis st.updatelist hwf]

theorem genpacket_invalid (st : BaseState) (ptype : String)
    (h : ¬(ptype = "ALL" ∨ ptype = "UPDATE" ∨ ptype = "METADATA")) :
    genpacket st ptype = Except.error (PyError.valueError ptype) := by
  rw [genpacket, if_pos h]

theorem wifiSend_gated (st : WifiState) (env : WifiEnv) (out : List String)
    (h : env.tGate - st.base.last_update_time < st.base.min_update_interval) :
    wifiSend st env out = (st, out) := by
  rw [wifiSend, if_pos h]

theorem wifiSend_sendOk (st : WifiState) (env : WifiEnv) (out : List String) (pkt : String)
    (h : ¬ (env.tGate - st.base.last_update_time < st.base.min_update_interval))
    (hg : genpacket st.base env.payload.packettype = Except.ok pkt)
    (hs : env.sendOk = true) :
    wifiSend st env out =
      ({ st with base := { st.base with updatelist := [], last_update_time := env.tWrite } },
        out ++ [pkt]) := by
  rw [wifiSend, if_neg h, hg]
  simp [hs]

theorem wifiSend_sendFail (st : WifiState) (env : WifiEnv) (out : List String) (pkt : String)
    (h : ¬ (env.tGate - st.base.last_update_time < st.base.min_update_interval))
    (hg : genpacket st.base env.payload.packettype = Except.ok pkt)
    (hs : env.sendOk = false) :
    wifiSend st env out = ({ st with connected := false }, out) := by
  rw [wifiSend, if_neg h, hg]
  simp [hs]

theorem wifiSend_genError (st : WifiState) (env : WifiEnv) (out : List String) (e : PyError)
    (h : ¬ (env.tGate - st.base.last_update_time < st.base.min_update_interval))
    (hg : genpacket st.base env.payload.packettype = Except.error e) :
    wifiSend st env out = ({ st with connected := false }, out) := by
  rw [wifiSend, if_neg h, hg]

theorem wifiStep_connected (wst : WifiState) (env : WifiEnv)
    (hc : wst.connected = true) :
    wifiStep wst env =
      (let st2 : WifiState := { wst with base := applyPayload wst.base env.payload }
      match env.recv with
      | RecvResult.err => Except.error PyError.transportError
      | RecvResult.wouldBlock => Except.ok (wifiSend st2 env [])
      | RecvResult.data s =>
        if s = "" then Except.ok (wifiSend st2 env [])
        else if pyStrip s = "!ALL" then
          match genpacket st2.base "ALL" with
          | Except.error e => Except.error e
          | Except.ok pkt =>
            if env.oobSendOk then Except.ok (wifiSend st2 env [pkt])
            else Except.error PyError.transportError
        else Except.ok (wifiSend st2 env [])) := by
  rw [wifiStep]
  simp [hc]

theorem wifiStep_acceptFail (wst : WifiState) (env : WifiEnv)
    (hc : wst.connected = false) (ha : env.acceptOk = false) :
    wifiStep wst env =
      Except.ok ({ wst with base := applyPayload wst.base env.payload }, []) := by
  rw [wifiStep]
  simp [hc, ha]

theorem wifiStep_acceptOk (wst : WifiState) (env : WifiEnv)
    (hc : wst.connected = false) (ha : env.acceptOk = true) :
    wifiStep wst env =
      (let st2 : WifiState := { base := applyPayload wst.base env.payload, connected := true }
      match env.recv with
      | RecvResult.err => Except.error PyError.transportError
      | RecvResult.wouldBlock => Except.ok (wifiSend st2 env [])
      | RecvResult.data s =>
        if s = "" then Except.ok (wifiSend st2 env [])
        else if pyStrip s = "!ALL" then
          match genpacket st2.base "ALL" with
          | Except.error e => Except.error e
          | Except.ok pkt =>
            if env.oobSendOk then Except.ok (wifiSend st2 env [pkt])
            else Except.error PyError.transportError
        else Except.ok (wifiSend st2 env [])) := by
  rw [wifiStep]
  simp [hc, ha]

theorem serialStep_connected (sst : SerialState) (env : SerialEnv)
    (hc : sst.connected = true) :
    serialStep sst env =
      serialSend { sst with base := applyPayload sst.base env.payload } env := by
  rw [serialStep]
  simp [hc]

theorem serialStep_openFail (sst : SerialState) (env : SerialEnv)
    (hc : sst.connected = false) (hp : sst.serport = some false)
    (ho : env.openOk = false) :
    serialStep sst env =
      Except.ok ({ sst with base := applyPayload sst.base env.payload }, []) := by
  rw [serialStep]
  simp [hc, ho, hp]

theorem serialSend_gated (st : SerialState) (env : SerialEnv)
    (h : env.tGate - st.base.last_update_time < st.base.min_update_interval) :
    serialSend st env = Except.ok (st, []) := by
  rw [serialSend, if_pos h]

theorem serialSend_writeOk (st : SerialState) (env : SerialEnv) (pkt : String)
    (h : ¬ (env.tGate - st.base.last_update_time < st.base.min_update_interval))
    (hg : genpacket st.base env.payload.packettype = Except.ok pkt)
    (hw : env.writeResult = WriteResult.ok) :
    serialSend st env =
      Except.ok
        ({ st with base := { st.base with updatelist := [], last_update_time := env.tWrite } },
          [pkt]) := by
  rw [serialSend, if_neg h, hg]
  simp [hw]

theorem serialSend_timeout (st : SerialState) (env : SerialEnv) (pkt : String)
    (h : ¬ (env.tGate - st.base.last_update_time < st.base.min_update_interval))
    (hg : genpacket st.base env.payload.packettype = Except.ok pkt)
    (hw : env.writeResult = WriteResult.timeoutErr) :
    serialSend st env = Except.ok ({ st with connected := false, serport := some false }, []) := by
  rw [serialSend, if_neg h, hg]
  simp [hw]

/-- Example KPI table shared by the concrete witnesses below. -/
def exTable : List NbpKPI :=
  [⟨"RPM", "rpm", "4600"⟩, ⟨"AFR", "", "14.7"⟩]

/-- Example broadcaster base state with a given pending update list. -/
def exState (ul : List String) : BaseState :=
  { device_name := "PyNBP"
    protocol_version := "NBP1"
    last_update_time := 0
    packettime := 1500000
    kpis := exTable
    updatelist := ul
    min_update_interval := 200000 }

/-- Example payloads for the state-tracker witness: RPM written twice in the
first payload, then AFR and a third RPM write in the second. -/
def exPayload1 : NbpPayload :=
  ⟨1000000, "UPDATE", [⟨"RPM", "rpm", "4500"⟩, ⟨"RPM", "rpm", "4600"⟩]⟩

def exPayload2 : NbpPayload :=
  ⟨2000000, "ALL", [⟨"AFR", "", "14.7"⟩, ⟨"RPM", "rpm", "4700"⟩]⟩

/-- C1: folding any sequence of payloads into a freshly initialized
broadcaster state yields exactly the last-write-wins merge by KPI name of
the concatenated KPI lists as the KPI table, the duplicate-free first-seen
sequence of those names as the pending update list, and the timestamp of
the final payload as the emission timestamp. -/
theorem C1_state_tracker_merge (dn pv : String) (mui : ℤ) (ps : List NbpPayload) :
    (ps.foldl applyPayload (initBase dn pv mui)).kpis = lwwMerge (allKpis ps) ∧
    (ps.foldl applyPayload (initBase dn pv mui)).updatelist =
      firstSeen ((allKpis ps).map (fun k => k.name)) ∧
    (ps.foldl applyPayload (initBase dn pv mui)).updatelist.Nodup ∧
    ∀ (h : ps ≠ []),
      (ps.foldl applyPayload (initBase dn pv mui)).packettime = (ps.getLast h).timestamp := by
  refine ⟨?_, ?_, ?_, ?_⟩
  · rw [foldl_applyPayload_kpis]
    exact foldl_upsert_eq_lwwMerge (allKpis ps)
  · rw [foldl_applyPayload_updatelist, foldl_addName]
    rfl
  · rw [foldl_applyPayload_updatelist, foldl_addName]
    exact nodup_firstSeenAux _ _
  · intro h
    exact foldl_applyPayload_packettime ps _ h

/-- Witness for C1 at a concrete two-payload sequence: the duplicate RPM
write collapses to its last value, names keep first-seen order, and the
emission timestamp is the second payload timestamp. -/
theorem C1_state_tracker_merge_witness :
    ([exPayload1, exPayload2].foldl applyPayload (initBase "PyNBP" "NBP1" 200000)).kpis =
      [⟨"RPM", "rpm", "4700"⟩, ⟨"AFR", "", "14.7"⟩] ∧
    ([exPayload1, exPayload2].foldl applyPayload (initBase "PyNBP" "NBP1" 200000)).updatelist =
      ["RPM", "AFR"] ∧
    ([exPayload1, exPayload2].foldl applyPayload (initBase "PyNBP" "NBP1" 200000)).packettime =
      2000000 := by
  have h := C1_state_tracker_merge "PyNBP" "NBP1" 200000 [exPayload1, exPayload2]
  exact ⟨h.1.trans (by decide), h.2.1.trans (by decide), (h.2.2.2 (by decide)).trans (by decide)⟩

/-- C2 counterexample: the claim quantifies over every pending list, but an
UPDATE encode with a pending name absent from the KPI table raises KeyError
instead of producing a packet. -/
theorem C2_counterexample :
    genpacket
      { device_name := "PyNBP", protocol_version := "NBP1", last_update_time := 0,
        packettime := 0, kpis := [], updatelist := ["ghost"], min_update_interval := 200000 }
      "UPDATE" = Except.error (PyError.keyError "ghost") := by
  decide

/-- C2 as amended: for every protocol version, timestamp, KPI table and
pending list all of whose names occur in the table, encoding an ALL or
UPDATE packet yields exactly the header line with the timestamp in
six-decimal fixed point, one line per selected KPI — quoted name and quoted
unit when the unit is non-empty, quoted name alone otherwise, then the
value text — and the hash-mark footer followed by two newlines, as one
byte sequence. -/
theorem C2_packet_format (st : BaseState) (kind : String)
    (hk : kind = "ALL" ∨ kind = "UPDATE")
    (hwf : ∀ n ∈ st.updatelist, (lookupKpi st.kpis n).isSome) :
    ∃ ks : List NbpKPI, selectKpis st kind = Except.ok ks ∧
      genpacket st kind =
        Except.ok
          ("*" ++ st.protocol_version ++ "," ++ kind ++ "," ++ format6 st.packettime ++ "\n" ++
            (ks.map (fun k =>
              if k.unit ≠ "" then
                "\"" ++ k.name ++ "\",\"" ++ k.unit ++ "\":" ++ k.value ++ "\n"
              else
                "\"" ++ k.name ++ "\":" ++ k.value ++ "\n")).foldr (fun a b => a ++ b) "" ++
            "#\n\n") := by
  rcases hk with hk | hk
  · subst hk
    refine ⟨st.kpis, by rw [selectKpis, if_neg (fun c => c.2 rfl)], ?_⟩
    rw [genpacket_all, packetBody_eq_foldr]
    rfl
  · subst hk
    by_cases he : st.updatelist = []
    · refine ⟨st.kpis, by rw [selectKpis, if_neg (fun c => c.1 he)], ?_⟩
      rw [genpacket_update_of_empty st he, packetBody_eq_foldr]
      rfl
    · refine ⟨st.updatelist.filterMap (lookupKpi st.kpis),
        by rw [selectKpis, if_pos ⟨he, by decide⟩,
          selectPending_ok st.kpis st.updatelist hwf], ?_⟩
      rw [genpacket_update_of_pending st he hwf, packetBody_eq_foldr]
      rfl

/-- Witness for C2 at a concrete state: an UPDATE packet over a table with
one united and one unitless KPI and pending list AFR. -/
theorem C2_packet_format_witness :
    ∃ ks : List NbpKPI, selectKpis (exState ["AFR"]) "UPDATE" = Except.ok ks ∧
      genpacket (exState ["AFR"]) "UPDATE" =
        Except.ok
          ("*" ++ (exState ["AFR"]).protocol_version ++ "," ++ "UPDATE" ++ "," ++
              format6 (exState ["AFR"]).packettime ++ "\n" ++
            (ks.map (fun k =>
              if k.unit ≠ "" then
                "\"" ++ k.name ++ "\",\"" ++ k.unit ++ "\":" ++ k.value ++ "\n"
              else
                "\"" ++ k.name ++ "\":" ++ k.value ++ "\n")).foldr (fun a b => a ++ b) "" ++
            "#\n\n") :=
  C2_packet_format (exState ["AFR"]) "UPDATE" (Or.inr rfl) (by decide)

/-- C3: an UPDATE encode with a non-empty pending list selects exactly the
KPIs named by the pending list, in pending-list order; with an empty
pending list it selects the whole table, so its packet carries the same
body as the ALL packet of the same state. -/
theorem C3_update_selection (st : BaseState)
    (hwf : ∀ n ∈ st.updatelist, (lookupKpi st.kpis n).isSome) :
    (st.updatelist ≠ [] →
      selectKpis st "UPDATE" = Except.ok (st.updatelist.filterMap (lookupKpi st.kpis)) ∧
      (st.updatelist.filterMap (lookupKpi st.kpis)).map (fun k => k.name) = st.updatelist) ∧
    (st.updatelist = [] →
      selectKpis st "UPDATE" = Except.ok st.kpis ∧
      genpacket st "UPDATE" =
        Except.ok (packetHeader st "UPDATE" ++ packetBody st.kpis ++ "#\n\n") ∧
      genpacket st "ALL" =
        Except.ok (packetHeader st "ALL" ++ packetBody st.kpis ++ "#\n\n")) := by
  constructor
  · intro hne
    refine ⟨?_, map_name_filterMap _ _ (fun n hn => lookupKpi_isSome_exists (hwf n hn))⟩
    rw [selectKpis, if_pos ⟨hne, by decide⟩, selectPending_ok st.kpis st.updatelist hwf]
  · intro he
    exact ⟨by rw [selectKpis, if_neg (fun c => c.1 he)],
      genpacket_update_of_empty st he, genpacket_all st⟩

/-- Witness for C3: with pending list AFR only the AFR line is selected;
with an empty pending list the UPDATE and ALL packets differ only in the
kind token of the header. -/
theorem C3_update_selection_witness :
    selectKpis (exState ["AFR"]) "UPDATE" = Except.ok [⟨"AFR", "", "14.7"⟩] ∧
    genpacket (exState []) "UPDATE" =
      Except.ok "*NBP1,UPDATE,1.500000\n\"RPM\",\"rpm\":4600\n\"AFR\":14.7\n#\n\n" ∧
    genpacket (exState []) "ALL" =
      Except.ok "*NBP1,ALL,1.500000\n\"RPM\",\"rpm\":4600\n\"AFR\":14.7\n#\n\n" := by
  have h1 := C3_update_selection (exState ["AFR"]) (by decide)
  have h2 := C3_update_selection (exState []) (by decide)
  exact ⟨((h1.1 (by decide)).1).trans (by decide),
    ((h2.2 rfl).2.1).trans (by decide), ((h2.2 rfl).2.2).trans (by decide)⟩

/-- C9: a METADATA encode returns exactly the at-NAME line with the device
name and two newlines, for every state — so it depends on nothing but the
device name: no header, no body, no footer. -/
theorem C9_metadata_packet (st : BaseState) :
    genpacket st "METADATA" = Except.ok ("@NAME:" ++ st.device_name ++ "\n\n") := by
  rw [genpacket, if_neg (by decide), if_pos rfl]
  rfl

/-- C4: the encoder does raise on an unrecognized kind, and the serial loop
lets that ValueError escape as a defect signal — but the socket loop
catches it with the broad send-failure handler, closes the connection,
and continues: the defect is swallowed there, contrary to the claim. -/
theorem C4_invalid_kind_divergence :
    serialStep { base := exState [], connected := true, serport := some true }
      { payload := ⟨1000000, "BOGUS", []⟩, openOk := false, tGate := 10000000,
        tWrite := 10000000, writeResult := WriteResult.ok } =
      Except.error (PyError.valueError "BOGUS") ∧
    wifiStep { base := exState [], connected := true }
      { payload := ⟨1000000, "BOGUS", []⟩, acceptOk := false, recv := RecvResult.wouldBlock,
        oobSendOk := true, tGate := 10000000, tWrite := 10000000, sendOk := true } =
      Except.ok ({ base := { exState [] with packettime := 1000000 }, connected := false },
        []) := by
  constructor
  · decide
  · decide

/-- C5: on the very first iteration with a failed serial open, the guard
evaluates the is-open attribute of a still-None serport and raises
AttributeError instead of skipping to the next dequeue. -/
theorem C5_first_open_failure_crash :
    serialStep (initSerial (initBase "PyNBP" "NBP1" 200000))
      { payload := ⟨1000000, "ALL", [⟨"RPM", "rpm", "4500"⟩]⟩, openOk := false,
        tGate := 10000000, tWrite := 10000000, writeResult := WriteResult.ok } =
      Except.error (PyError.attributeError "NoneType object has no attribute is_open") := by
  decide

/-- C6 counterexample: a send failure during the out-of-band response to a
client !ALL request is not caught by the read handler (which only catches
the nothing-to-read case) and escapes the socket loop. -/
theorem C6_counterexample :
    wifiStep { base := exState [], connected := true }
      { payload := ⟨1000000, "UPDATE", [⟨"RPM", "rpm", "4500"⟩]⟩, acceptOk := false,
        recv := RecvResult.data "!ALL\n", oobSendOk := false, tGate := 10000000,
        tWrite := 10000000, sendOk := true } = Except.error PyError.transportError := by
  decide

/-- C6 as amended: accept and open failures and failures of the regular
rate-gated send are handled inside the loop bodies — logged and at worst
degrading to the disconnected state — but not every transport error is: a
socket read failure or a send failure during the out-of-band !ALL response
escapes the socket loop, a non-timeout write failure escapes the serial
loop, and the serial open-failure handling itself only survives once a
port object exists from an earlier successful open. -/
theorem C6_transport_error_handling :
    (∀ (wst : WifiState) (env : WifiEnv), wst.connected = false → env.acceptOk = false →
      wifiStep wst env =
        Except.ok ({ wst with base := applyPayload wst.base env.payload }, [])) ∧
    (∀ (wst : WifiState) (env : WifiEnv) (pkt : String), wst.connected = true →
      env.recv = RecvResult.wouldBlock →
      ¬ (env.tGate - wst.base.last_update_time < wst.base.min_update_interval) →
      genpacket (applyPayload wst.base env.payload) env.payload.packettype = Except.ok pkt →
      env.sendOk = false →
      wifiStep wst env =
        Except.ok ({ base := applyPayload wst.base env.payload, connected := false }, [])) ∧
    (∀ (sst : SerialState) (env : SerialEnv), sst.connected = false →
      sst.serport = some false → env.openOk = false →
      serialStep sst env =
        Except.ok ({ sst with base := applyPayload sst.base env.payload }, [])) ∧
    (∀ (sst : SerialState) (env : SerialEnv) (pkt : String), sst.connected = true →
      env.writeResult = WriteResult.timeoutErr →
      ¬ (env.tGate - sst.base.last_update_time < sst.base.min_update_interval) →
      genpacket (applyPayload sst.base env.payload) env.payload.packettype = Except.ok pkt →
      serialStep sst env =
        Except.ok
          ({ base := applyPayload sst.base env.payload, connected := false, serport := some false },
            [])) := by
  refine ⟨?_, ?_, ?_, ?_⟩
  · intro wst env hc ha
    exact wifiStep_acceptFail wst env hc ha
  · intro wst env pkt hc hr hgate hg hs
    rw [wifiStep_connected wst env hc, hr]
    show Except.ok
        (wifiSend { base := applyPayload wst.base env.payload, connected := wst.connected }
          env []) =
      Except.ok ({ base := applyPayload wst.base env.payload, connected := false }, [])
    rw [wifiSend_sendFail
      { base := applyPayload wst.base env.payload, connected := wst.connected } env [] pkt
      (by simpa [applyPayload_last_update_time, applyPayload_min_update_interval] using hgate)
      hg hs]
  · intro sst env hc hp ho
    exact serialStep_openFail sst env hc hp ho
  · intro sst env pkt hc hw hgate hg
    rw [serialStep_connected sst env hc]
    rw [serialSend_timeout _ env pkt
      (by simpa [applyPayload_last_update_time, applyPayload_min_update_interval] using hgate)
      hg hw]

/-- Witness for C6 at concrete states: a failed accept skips the iteration,
a failed regular send disconnects the socket broadcaster, a failed re-open
over an existing closed port skips the serial iteration, and a write
timeout disconnects the serial broadcaster. -/
theorem C6_transport_error_handling_witness :
    wifiStep { base := exState [], connected := false }
      { payload := ⟨1000000, "UPDATE", []⟩, acceptOk := false, recv := RecvResult.wouldBlock,
        oobSendOk := true, tGate := 10000000, tWrite := 10000000, sendOk := true } =
      Except.ok ({ base := { exState [] with packettime := 1000000 }, connected := false },
        []) ∧
    wifiStep { base := exState [], connected := true }
      { payload := ⟨1000000, "UPDATE", []⟩, acceptOk := false, recv := RecvResult.wouldBlock,
        oobSendOk := true, tGate := 10000000, tWrite := 10000000, sendOk := false } =
      Except.ok ({ base := { exState [] with packettime := 1000000 }, connected := false },
        []) ∧
    serialStep { base := exState [], connected := false, serport := some false }
      { payload := ⟨1000000, "UPDATE", []⟩, openOk := false, tGate := 10000000,
        tWrite := 10000000, writeResult := WriteResult.ok } =
      Except.ok
        ({ base := { exState [] with packettime := 1000000 }, connected := false, serport := some false },
          []) ∧
    serialStep { base := exState [], connected := true, serport := some true }
      { payload := ⟨1000000, "UPDATE", []⟩, openOk := false, tGate := 10000000,
        tWrite := 10000000, writeResult := WriteResult.timeoutErr } =
      Except.ok
        ({ base := { exState [] with packettime := 1000000 }, connected := false, serport := some false },
          []) := by
  have h := C6_transport_error_handling
  refine ⟨(h.1 _ _ rfl rfl).trans (by decide),
    (h.2.1 _ _ "*NBP1,UPDATE,1.000000\n\"RPM\",\"rpm\":4600\n\"AFR\":14.7\n#\n\n"
      rfl rfl (by decide) (by decide) rfl).trans (by decide),
    (h.2.2.1 _ _ rfl rfl rfl).trans (by decide),
    (h.2.2.2 _ _ "*NBP1,UPDATE,1.000000\n\"RPM\",\"rpm\":4600\n\"AFR\":14.7\n#\n\n"
      rfl rfl (by decide) (by decide)).trans (by decide)⟩

theorem wifiSend_out_append (st : WifiState) (env : WifiEnv) (out : List String) :
    ∃ st3 rest, wifiSend st env out = (st3, out ++ rest) := by
  by_cases h : env.tGate - st.base.last_update_time < st.base.min_update_interval
  · exact ⟨st, [], by rw [wifiSend_gated st env out h, List.append_nil]⟩
  · cases hg : genpacket st.base env.payload.packettype with
    | error e =>
      exact ⟨{ st with connected := false }, [],
        by rw [wifiSend_genError st env out e h hg, List.append_nil]⟩
    | ok pkt =>
      cases hsd : env.sendOk with
      | true =>
        refine ⟨{ st with base := { st.base with updatelist := [], last_update_time := env.tWrite } }, [pkt], ?_⟩
        rw [wifiSend_sendOk st env out pkt h hg hsd]
      | false =>
        exact ⟨{ st with connected := false }, [],
          by rw [wifiSend_sendFail st env out pkt h hg hsd, List.append_nil]⟩

theorem wifiStep_oobSend (wst : WifiState) (env : WifiEnv) (s pkt : String)
    (hc : wst.connected = true) (hr : env.recv = RecvResult.data s)
    (hs : ¬ s = "") (ht : pyStrip s = "!ALL") (ho : env.oobSendOk = true)
    (hg : genpacket (applyPayload wst.base env.payload) "ALL" = Except.ok pkt) :
    wifiStep wst env =
      Except.ok (wifiSend { wst with base := applyPayload wst.base env.payload } env [pkt]) := by
  simp [wifiStep, hc, hr, hs, ht, ho, hg]

theorem wifiStep_oobSend_accept (wst : WifiState) (env : WifiEnv) (s pkt : String)
    (hc : wst.connected = false) (ha : env.acceptOk = true) (hr : env.recv = RecvResult.data s)
    (hs : ¬ s = "") (ht : pyStrip s = "!ALL") (ho : env.oobSendOk = true)
    (hg : genpacket (applyPayload wst.base env.payload) "ALL" = Except.ok pkt) :
    wifiStep wst env =
      Except.ok
        (wifiSend { base := applyPayload wst.base env.payload, connected := true } env [pkt]) := by
  simp [wifiStep, hc, ha, hr, hs, ht, ho, hg]

/-- C7: whenever the connected client of the socket broadcaster sends data
that strips to the !ALL token, the iteration sends a full ALL packet over
the whole KPI table first, whatever the clock readings are — the rate gate
plays no part in this send. -/
theorem C7_all_request (wst : WifiState) (env : WifiEnv) (s : String)
    (hc : wst.connected = true ∨ env.acceptOk = true)
    (hr : env.recv = RecvResult.data s) (hs : ¬ s = "") (ht : pyStrip s = "!ALL")
    (ho : env.oobSendOk = true) :
    ∃ (st3 : WifiState) (out : List String),
      wifiStep wst env =
        Except.ok (st3,
          (packetHeader (applyPayload wst.base env.payload) "ALL" ++
            packetBody (applyPayload wst.base env.payload).kpis ++ "#\n\n") :: out) := by
  have hg := genpacket_all (applyPayload wst.base env.payload)
  by_cases hwc : wst.connected = true
  · obtain ⟨st3, rest, hws⟩ := wifiSend_out_append
      { wst with base := applyPayload wst.base env.payload } env
      [packetHeader (applyPayload wst.base env.payload) "ALL" ++
        packetBody (applyPayload wst.base env.payload).kpis ++ "#\n\n"]
    refine ⟨st3, rest, ?_⟩
    rw [wifiStep_oobSend wst env s _ hwc hr hs ht ho hg, hws]
    rfl
  · have hwc2 : wst.connected = false := by
      cases h2 : wst.connected with
      | false => rfl
      | true => exact absurd h2 hwc
    have hacc : env.acceptOk = true := hc.resolve_left hwc
    obtain ⟨st3, rest, hws⟩ := wifiSend_out_append
      { base := applyPayload wst.base env.payload, connected := true } env
      [packetHeader (applyPayload wst.base env.payload) "ALL" ++
        packetBody (applyPayload wst.base env.payload).kpis ++ "#\n\n"]
    refine ⟨st3, rest, ?_⟩
    rw [wifiStep_oobSend_accept wst env s _ hwc2 hacc hr hs ht ho hg, hws]
    rfl

/-- Witness for C7: a client !ALL request while the rate gate is still
closed (50 milliseconds after the last emission) produces the full packet
immediately. -/
theorem C7_all_request_witness :
    ∃ (st3 : WifiState) (out : List String),
      wifiStep { base := exState [], connected := true }
        { payload := ⟨1000000, "UPDATE", []⟩, acceptOk := false,
          recv := RecvResult.data "!ALL\n", oobSendOk := true, tGate := 50000,
          tWrite := 50000, sendOk := true } =
        Except.ok (st3,
          (packetHeader (applyPayload (exState []) ⟨1000000, "UPDATE", []⟩) "ALL" ++
            packetBody (applyPayload (exState []) ⟨1000000, "UPDATE", []⟩).kpis ++ "#\n\n")
            :: out) :=
  C7_all_request { base := exState [], connected := true }
    { payload := ⟨1000000, "UPDATE", []⟩, acceptOk := false,
      recv := RecvResult.data "!ALL\n", oobSendOk := true, tGate := 50000,
      tWrite := 50000, sendOk := true } "!ALL\n" (Or.inl rfl) rfl (by decide) (by decide) rfl

/-- C8: in both broadcasters a connected iteration whose gate reading is
strictly within the minimum update interval of the last emission writes
nothing and leaves the accumulated KPI table and pending list untouched,
while a reading at or beyond the interval encodes and writes the packet. -/
theorem C8_rate_gate :
    (∀ (sst : SerialState) (env : SerialEnv), sst.connected = true →
      env.tGate - sst.base.last_update_time < sst.base.min_update_interval →
      serialStep sst env =
        Except.ok ({ sst with base := applyPayload sst.base env.payload }, [])) ∧
    (∀ (sst : SerialState) (env : SerialEnv) (pkt : String), sst.connected = true →
      ¬ (env.tGate - sst.base.last_update_time < sst.base.min_update_interval) →
      genpacket (applyPayload sst.base env.payload) env.payload.packettype = Except.ok pkt →
      env.writeResult = WriteResult.ok →
      serialStep sst env =
        Except.ok
          ({ sst with base := { applyPayload sst.base env.payload with
              updatelist := [], last_update_time := env.tWrite } },
            [pkt])) ∧
    (∀ (wst : WifiState) (env : WifiEnv), wst.connected = true →
      env.recv = RecvResult.wouldBlock →
      env.tGate - wst.base.last_update_time < wst.base.min_update_interval →
      wifiStep wst env =
        Except.ok ({ wst with base := applyPayload wst.base env.payload }, [])) ∧
    (∀ (wst : WifiState) (env : WifiEnv) (pkt : String), wst.connected = true →
      env.recv = RecvResult.wouldBlock →
      ¬ (env.tGate - wst.base.last_update_time < wst.base.min_update_interval) →
      genpacket (applyPayload wst.base env.payload) env.payload.packettype = Except.ok pkt →
      env.sendOk = true →
      wifiStep wst env =
        Except.ok
          ({ wst with base := { applyPayload wst.base env.payload with
              updatelist := [], last_update_time := env.tWrite } },
            [pkt])) := by
  refine ⟨?_, ?_, ?_, ?_⟩
  · intro sst env hc hlt
    rw [serialStep_connected sst env hc]
    exact serialSend_gated _ env
      (by simpa [applyPayload_last_update_time, applyPayload_min_update_interval] using hlt)
  · intro sst env pkt hc hge hg hw
    rw [serialStep_connected sst env hc]
    exact serialSend_writeOk _ env pkt
      (by simpa [applyPayload_last_update_time, applyPayload_min_update_interval] using hge)
      hg hw
  · intro wst env hc hr hlt
    rw [wifiStep_connected wst env hc, hr]
    show Except.ok
        (wifiSend { base := applyPayload wst.base env.payload, connected := wst.connected }
          env []) =
      Except.ok ({ wst with base := applyPayload wst.base env.payload }, [])
    rw [wifiSend_gated
      { base := applyPayload wst.base env.payload, connected := wst.connected } env []
      (by simpa [applyPayload_last_update_time, applyPayload_min_update_interval] using hlt)]
  · intro wst env pkt hc hr hge hg hsd
    rw [wifiStep_connected wst env hc, hr]
    show Except.ok
        (wifiSend { base := applyPayload wst.base env.payload, connected := wst.connected }
          env []) =
      Except.ok
        ({ wst with base := { applyPayload wst.base env.payload with
            updatelist := [], last_update_time := env.tWrite } },
          [pkt])
    rw [wifiSend_sendOk
      { base := applyPayload wst.base env.payload, connected := wst.connected } env [] pkt
      (by simpa [applyPayload_last_update_time, applyPayload_min_update_interval] using hge)
      hg hsd]
    rfl

/-- Witness for C8, the scenario of the specification on the microsecond
grid: a first write goes out, a second attempt 50 milliseconds later is
gated off with the state held, and a third attempt 250 milliseconds after
the first write goes out again (interval 200 milliseconds). -/
theorem C8_rate_gate_witness :
    serialStep { base := exState [], connected := true, serport := some true }
      { payload := ⟨1000000, "ALL", []⟩, openOk := false, tGate := 1000000000000,
        tWrite := 1000000000000, writeResult := WriteResult.ok } =
      Except.ok
        ({ base := { exState [] with packettime := 1000000, last_update_time := 1000000000000 }, connected := true, serport := some true },
          ["*NBP1,ALL,1.000000\n\"RPM\",\"rpm\":4600\n\"AFR\":14.7\n#\n\n"]) ∧
    serialStep { base := { exState [] with packettime := 1000000, last_update_time := 1000000000000 }, connected := true, serport := some true }
      { payload := ⟨2000000, "ALL", []⟩, openOk := false, tGate := 1000000050000,
        tWrite := 1000000050000, writeResult := WriteResult.ok } =
      Except.ok
        ({ base := { exState [] with packettime := 2000000, last_update_time := 1000000000000 }, connected := true, serport := some true },
          []) ∧
    serialStep { base := { exState [] with packettime := 2000000, last_update_time := 1000000000000 }, connected := true, serport := some true }
      { payload := ⟨3000000, "ALL", []⟩, openOk := false, tGate := 1000000250000,
        tWrite := 1000000250000, writeResult := WriteResult.ok } =
      Except.ok
        ({ base := { exState [] with packettime := 3000000, last_update_time := 1000000250000 }, connected := true, serport := some true },
          ["*NBP1,ALL,3.000000\n\"RPM\",\"rpm\":4600\n\"AFR\":14.7\n#\n\n"]) ∧
    wifiStep { base := { exState [] with last_update_time := 1000000000000 }, connected := true }
      { payload := ⟨2000000, "UPDATE", []⟩, acceptOk := false, recv := RecvResult.wouldBlock,
        oobSendOk := true, tGate := 1000000050000, tWrite := 1000000050000, sendOk := true } =
      Except.ok
        ({ base := { exState [] with packettime := 2000000, last_update_time := 1000000000000 }, connected := true },
          []) := by
  have h := C8_rate_gate
  refine ⟨?_, ?_, ?_, ?_⟩
  · exact (h.2.1 _ _ "*NBP1,ALL,1.000000\n\"RPM\",\"rpm\":4600\n\"AFR\":14.7\n#\n\n"
      rfl (by decide) (by decide) rfl).trans (by decide)
  · exact (h.1 _ _ rfl (by decide)).trans (by decide)
  · exact (h.2.1 _ _ "*NBP1,ALL,3.000000\n\"RPM\",\"rpm\":4600\n\"AFR\":14.7\n#\n\n"
      rfl (by decide) (by decide) rfl).trans (by decide)
  · exact (h.2.2.1 _ _ rfl rfl (by decide)).trans (by decide)

/-- C10: the pending list is cleared and the emission instant recorded
exactly by a successful regular rate-gated write, whatever the packet kind
— METADATA included, whose packet carries no KPI line, so pending changes
are dropped by it — while a gated-off pass and a failed send leave both
untouched; the out-of-band !ALL send leaves the whole broadcaster state at
exactly the merged state of the iteration. -/
theorem C10_emission_frame :
    (∀ (wst : WifiState) (env : WifiEnv) (pkt : String), wst.connected = true →
      env.recv = RecvResult.wouldBlock →
      ¬ (env.tGate - wst.base.last_update_time < wst.base.min_update_interval) →
      genpacket (applyPayload wst.base env.payload) env.payload.packettype = Except.ok pkt →
      env.sendOk = true →
      ∃ st3 : WifiState, wifiStep wst env = Except.ok (st3, [pkt]) ∧
        st3.base.updatelist = [] ∧ st3.base.last_update_time = env.tWrite) ∧
    (∀ (wst : WifiState) (env : WifiEnv), wst.connected = true →
      env.recv = RecvResult.wouldBlock →
      env.tGate - wst.base.last_update_time < wst.base.min_update_interval →
      ∃ st3 : WifiState, wifiStep wst env = Except.ok (st3, []) ∧
        st3.base.updatelist = (applyPayload wst.base env.payload).updatelist ∧
        st3.base.last_update_time = wst.base.last_update_time) ∧
    (∀ (wst : WifiState) (env : WifiEnv) (pkt : String), wst.connected = true →
      env.recv = RecvResult.wouldBlock →
      ¬ (env.tGate - wst.base.last_update_time < wst.base.min_update_interval) →
      genpacket (applyPayload wst.base env.payload) env.payload.packettype = Except.ok pkt →
      env.sendOk = false →
      ∃ st3 : WifiState, wifiStep wst env = Except.ok (st3, []) ∧
        st3.base.updatelist = (applyPayload wst.base env.payload).updatelist ∧
        st3.base.last_update_time = wst.base.last_update_time) ∧
    (∀ (sst : SerialState) (env : SerialEnv) (pkt : String), sst.connected = true →
      ¬ (env.tGate - sst.base.last_update_time < sst.base.min_update_interval) →
      genpacket (applyPayload sst.base env.payload) env.payload.packettype = Except.ok pkt →
      env.writeResult = WriteResult.ok →
      ∃ st3 : SerialState, serialStep sst env = Except.ok (st3, [pkt]) ∧
        st3.base.updatelist = [] ∧ st3.base.last_update_time = env.tWrite) ∧
    (∀ (sst : SerialState) (env : SerialEnv), sst.connected = true →
      env.tGate - sst.base.last_update_time < sst.base.min_update_interval →
      ∃ st3 : SerialState, serialStep sst env = Except.ok (st3, []) ∧
        st3.base.updatelist = (applyPayload sst.base env.payload).updatelist ∧
        st3.base.last_update_time = sst.base.last_update_time) ∧
    (∀ (sst : SerialState) (env : SerialEnv) (pkt : String), sst.connected = true →
      ¬ (env.tGate - sst.base.last_update_time < sst.base.min_update_interval) →
      genpacket (applyPayload sst.base env.payload) env.payload.packettype = Except.ok pkt →
      env.writeResult = WriteResult.timeoutErr →
      ∃ st3 : SerialState, serialStep sst env = Except.ok (st3, []) ∧
        st3.base.updatelist = (applyPayload sst.base env.payload).updatelist ∧
        st3.base.last_update_time = sst.base.last_update_time) ∧
    (∀ (wst : WifiState) (env : WifiEnv) (s : String), wst.connected = true →
      env.recv = RecvResult.data s → ¬ s = "" → pyStrip s = "!ALL" →
      env.oobSendOk = true →
      env.tGate - wst.base.last_update_time < wst.base.min_update_interval →
      ∃ pkt : String, genpacket (applyPayload wst.base env.payload) "ALL" = Except.ok pkt ∧
        wifiStep wst env =
          Except.ok ({ wst with base := applyPayload wst.base env.payload }, [pkt])) := by
  refine ⟨?_, ?_, ?_, ?_, ?_, ?_, ?_⟩
  · intro wst env pkt hc hr hge hg hsd
    refine ⟨{ wst with base := { applyPayload wst.base env.payload with updatelist := [], last_update_time := env.tWrite } }, ?_, rfl, rfl⟩
    rw [wifiStep_connected wst env hc, hr]
    show Except.ok
        (wifiSend { base := applyPayload wst.base env.payload, connected := wst.connected }
          env []) = _
    rw [wifiSend_sendOk
      { base := applyPayload wst.base env.payload, connected := wst.connected } env [] pkt
      (by simpa [applyPayload_last_update_time, applyPayload_min_update_interval] using hge)
      hg hsd]
    rfl
  · intro wst env hc hr hlt
    refine ⟨{ wst with base := applyPayload wst.base env.payload }, ?_, rfl,
      applyPayload_last_update_time wst.base env.payload⟩
    rw [wifiStep_connected wst env hc, hr]
    show Except.ok
        (wifiSend { base := applyPayload wst.base env.payload, connected := wst.connected }
          env []) = _
    rw [wifiSend_gated
      { base := applyPayload wst.base env.payload, connected := wst.connected } env []
      (by simpa [applyPayload_last_update_time, applyPayload_min_update_interval] using hlt)]
  · intro wst env pkt hc hr hge hg hsd
    refine ⟨{ base := applyPayload wst.base env.payload, connected := false }, ?_, rfl,
      applyPayload_last_update_time wst.base env.payload⟩
    rw [wifiStep_connected wst env hc, hr]
    show Except.ok
        (wifiSend { base := applyPayload wst.base env.payload, connected := wst.connected }
          env []) = _
    rw [wifiSend_sendFail
      { base := applyPayload wst.base env.payload, connected := wst.connected } env [] pkt
      (by simpa [applyPayload_last_update_time, applyPayload_min_update_interval] using hge)
      hg hsd]
  · intro sst env pkt hc hge hg hw
    refine ⟨{ sst with base := { applyPayload sst.base env.payload with updatelist := [], last_update_time := env.tWrite } }, ?_, rfl, rfl⟩
    rw [serialStep_connected sst env hc]
    exact serialSend_writeOk _ env pkt
      (by simpa [applyPayload_last_update_time, applyPayload_min_update_interval] using hge)
      hg hw
  · intro sst env hc hlt
    refine ⟨{ sst with base := applyPayload sst.base env.payload }, ?_, rfl,
      applyPayload_last_update_time sst.base env.payload⟩
    rw [serialStep_connected sst env hc]
    exact serialSend_gated _ env
      (by simpa [applyPayload_last_update_time, applyPayload_min_update_interval] using hlt)
  · intro sst env pkt hc hge hg hw
    refine ⟨{ base := applyPayload sst.base env.payload, connected := false, serport := some false }, ?_, rfl,
      applyPayload_last_update_time sst.base env.payload⟩
    rw [serialStep_connected sst env hc]
    exact serialSend_timeout _ env pkt
      (by simpa [applyPayload_last_update_time, applyPayload_min_update_interval] using hge)
      hg hw
  · intro wst env s hc hr hs ht ho hlt
    refine ⟨packetHeader (applyPayload wst.base env.payload) "ALL" ++
      packetBody (applyPayload wst.base env.payload).kpis ++ "#\n\n",
      genpacket_all (applyPayload wst.base env.payload), ?_⟩
    rw [wifiStep_oobSend wst env s _ hc hr hs ht ho
      (genpacket_all (applyPayload wst.base env.payload))]
    rw [wifiSend_gated { wst with base := applyPayload wst.base env.payload } env _
      (by simpa [applyPayload_last_update_time, applyPayload_min_update_interval] using hlt)]

/-- Witness for C10: a METADATA emission clears the pending AFR change and
records the emission instant even though its packet carries no KPI line,
and a gate-blocked iteration answering a client !ALL request leaves the
merged state fully intact while still sending the full packet. -/
theorem C10_emission_frame_witness :
    (∃ st3 : WifiState,
      wifiStep { base := exState ["AFR"], connected := true }
        { payload := ⟨3000000, "METADATA", []⟩, acceptOk := false,
          recv := RecvResult.wouldBlock, oobSendOk := true, tGate := 10000000,
          tWrite := 10000000, sendOk := true } =
        Except.ok (st3, ["@NAME:PyNBP\n\n"]) ∧
      st3.base.updatelist = [] ∧ st3.base.last_update_time = 10000000) ∧
    (∃ pkt : String,
      genpacket (applyPayload (exState ["AFR"]) ⟨3000000, "UPDATE", []⟩) "ALL" =
        Except.ok pkt ∧
      wifiStep { base := { exState ["AFR"] with last_update_time := 9990000 }, connected := true }
        { payload := ⟨3000000, "UPDATE", []⟩, acceptOk := false,
          recv := RecvResult.data "!ALL", oobSendOk := true, tGate := 10000000,
          tWrite := 10000000, sendOk := true } =
        Except.ok
          ({ base := applyPayload { exState ["AFR"] with last_update_time := 9990000 }
              ⟨3000000, "UPDATE", []⟩, connected := true },
            [pkt])) := by
  have h := C10_emission_frame
  constructor
  · exact h.1 { base := exState ["AFR"], connected := true }
      { payload := ⟨3000000, "METADATA", []⟩, acceptOk := false,
        recv := RecvResult.wouldBlock, oobSendOk := true, tGate := 10000000,
        tWrite := 10000000, sendOk := true } "@NAME:PyNBP\n\n" rfl rfl (by decide)
      (by decide) rfl
  · have h7 := h.2.2.2.2.2.2
      { base := { exState ["AFR"] with last_update_time := 9990000 }, connected := true }
      { payload := ⟨3000000, "UPDATE", []⟩, acceptOk := false,
        recv := RecvResult.data "!ALL", oobSendOk := true, tGate := 10000000,
        tWrite := 10000000, sendOk := true } "!ALL" rfl rfl (by decide) (by decide) rfl
      (by decide)
    exact h7

end Pynbp
